import Mathlib

/-!
Verification development for the WebXR multiplayer template repository.

The subject is the room-based realtime synchronization layer:
`server/server.js` (relay server) and the client managers
(`NetworkManager`, `BulletManager`, `BirdManager`, `ScoreManager`, the
orbiting `Bird` entity).  JavaScript `Map`s are embedded as association
lists preserving insertion order (`Map.set` replaces in place or appends),
JavaScript `Set`s of connections as duplicate-free lists preserving
insertion order, wall-clock times as naturals (milliseconds), and the
geometry of the bird orbit as real arithmetic.  Payload fields that the
synchronization code merely copies and never inspects are carried as
opaque strings.
-/

/-- Association-list lookup, embedding JavaScript `Map.prototype.get`. -/
def lookupA {α β : Type} [DecidableEq α] (k : α) : List (α × β) → Option β
  | [] => none
  | p :: rest => if k = p.1 then some p.2 else lookupA k rest

/-- Association-list update, embedding JavaScript `Map.prototype.set`:
replaces the value in place when the key is present, appends otherwise. -/
def setA {α β : Type} [DecidableEq α] (k : α) (v : β) : List (α × β) → List (α × β)
  | [] => [(k, v)]
  | p :: rest => if k = p.1 then (k, v) :: rest else p :: setA k v rest

/-- Association-list removal, embedding JavaScript `Map.prototype.delete`. -/
def delA {α β : Type} [DecidableEq α] (k : α) : List (α × β) → List (α × β)
  | [] => []
  | p :: rest => if k = p.1 then rest else p :: delA k rest

/-- Embedding of JavaScript `Set.prototype.add` on an insertion-ordered,
duplicate-free list: a no-op when the element is present, append otherwise. -/
def setAdd (x : Nat) (xs : List Nat) : List Nat :=
  if x ∈ xs then xs else xs ++ [x]

/-- A websocket connection (the `ws` object), identified by a number. -/
abbrev Conn := Nat

/-- The per-connection record stored in the server's `clients` map:
`{ id, roomCode }` (server.js line 50). -/
structure ClientRec where
  id : Nat
  roomCode : Option String
deriving DecidableEq, Repr

/-- The server's mutable state: `rooms` (roomCode -> Set of clients),
`clients` (ws -> { id, roomCode }) and the `nextClientId` counter
(server.js lines 44-46). -/
structure ServerState where
  rooms : List (String × List Conn)
  clients : List (Conn × ClientRec)
  nextClientId : Nat
deriving DecidableEq, Repr

/-- An inbound client message as far as the server inspects it: the `type`
tag, the opaque payload (`data.data` and any other fields the server copies
verbatim), the optional `targetId` used by voice signaling, and the
optional `roomCode` used by host/join. -/
structure InMsg where
  type : String
  data : String
  targetId : Option Nat
  roomCode : Option String
deriving DecidableEq, Repr

/-- Outbound server messages (server.js `ws.send` / `broadcastToRoom`
call sites).  The three relayed constructors record which identity field
the server attaches: `{...data, id}` for position/interaction,
`{type, senderId, data}` for the entity messages, `{...data, playerId}`
for voice signaling. -/
inductive OutMsg where
  | init (id : Nat)
  | hostConfirm (roomCode : String)
  | joinConfirm (roomCode : String)
  | autoJoinConfirm (roomCode : String) (players : List Nat)
  | playerJoined (id : Nat)
  | playerLeft (id : Nat)
  | errorMsg (message : String)
  | relayedWithId (type : String) (id : Nat) (data : String)
  | relayedWithSender (type : String) (senderId : Nat) (data : String)
  | relayedVoice (type : String) (playerId : Nat) (data : String)
deriving DecidableEq, Repr

/-- The sender identity attached to a relayed message, if any. -/
def OutMsg.senderOf : OutMsg → Option Nat
  | OutMsg.relayedWithId _ i _ => some i
  | OutMsg.relayedWithSender _ i _ => some i
  | OutMsg.relayedVoice _ i _ => some i
  | _ => none

/-- `broadcastToRoom(roomCode, message, exclude)` (server.js lines 315-325):
looks the room up (a `null` room code finds nothing), then sends to every
member that is not the excluded socket and whose `readyState` is OPEN.
`openConn` is the environment's `readyState === OPEN` predicate. -/
def broadcastToRoom (s : ServerState) (openConn : Conn → Bool) (roomCode : Option String)
    (msg : OutMsg) (exclude : Option Conn) : List (Conn × OutMsg) :=
  match roomCode with
  | none => []
  | some rc =>
    match lookupA rc s.rooms with
    | none => []
    | some members =>
      (members.filter (fun c =>
        (match exclude with
         | some e => c != e
         | none => true) && openConn c)).map (fun c => (c, msg))

/-- `clients.get(c).id`, with an (unreachable for registered members)
default of 0. -/
def clientIdOf (s : ServerState) (c : Conn) : Nat :=
  match lookupA c s.clients with
  | some r => r.id
  | none => 0

/-- `handleHostSession` (server.js lines 192-209): if the code is free,
create the room with the requester as sole member, record the room on the
client and confirm; otherwise reply with an error and change nothing. -/
def handleHostSession (s : ServerState) (ws : Conn) (cl : ClientRec) (roomCode : String) :
    ServerState × List (Conn × OutMsg) :=
  match lookupA roomCode s.rooms with
  | none =>
    ({ s with rooms := setA roomCode [ws] s.rooms,
              clients := setA ws { cl with roomCode := some roomCode } s.clients },
     [(ws, OutMsg.hostConfirm roomCode)])
  | some _ => (s, [(ws, OutMsg.errorMsg ("Room already exists"))])

/-- `handleJoinSession` (server.js lines 211-247): add the connection to an
existing room, confirm, replay the existing members to the joiner, and
notify the rest of the room; reply with an error when the room is absent. -/
def handleJoinSession (openConn : Conn → Bool) (s : ServerState) (ws : Conn) (cl : ClientRec)
    (roomCode : String) : ServerState × List (Conn × OutMsg) :=
  match lookupA roomCode s.rooms with
  | some members =>
    let members' := setAdd ws members
    let s' : ServerState :=
      { s with rooms := setA roomCode members' s.rooms,
               clients := setA ws { cl with roomCode := some roomCode } s.clients }
    let existing := (members'.filter (fun c => c != ws)).map
      (fun c => (ws, OutMsg.playerJoined (clientIdOf s' c)))
    (s', ((ws, OutMsg.joinConfirm roomCode) :: existing)
          ++ broadcastToRoom s' openConn (some roomCode) (OutMsg.playerJoined cl.id) (some ws))
  | none => (s, [(ws, OutMsg.errorMsg ("Room not found"))])

/-- `handleAutoJoin` (server.js lines 249-313): scan the rooms (in insertion
order) for the first with fewer than 4 members, otherwise create a fresh
room under `freshCode` (the random code the server draws); add the
connection, confirm with the other members' identities, and notify the
room. -/
def handleAutoJoin (openConn : Conn → Bool) (freshCode : String) (s : ServerState) (ws : Conn)
    (cl : ClientRec) : ServerState × List (Conn × OutMsg) :=
  let found := s.rooms.find? (fun p => decide (p.2.length < 4))
  let code := match found with
    | some p => p.1
    | none => freshCode
  let members := match found with
    | some p => p.2
    | none => ([] : List Conn)
  let rooms0 := match found with
    | some _ => s.rooms
    | none => setA freshCode ([] : List Conn) s.rooms
  let members' := setAdd ws members
  let s' : ServerState :=
    { s with rooms := setA code members' rooms0,
             clients := setA ws { cl with roomCode := some code } s.clients }
  let players := (members'.filter (fun c => c != ws)).map (fun c => clientIdOf s' c)
  (s', (ws, OutMsg.autoJoinConfirm code players)
        :: broadcastToRoom s' openConn (some code) (OutMsg.playerJoined cl.id) (some ws))

/-- The five entity-relay cases of the server's message switch
(server.js lines 86-124); each case broadcasts
`{type, senderId: client.id, data: data.data}` excluding the sender. -/
def relayEntityTypes : List String :=
  ["bulletSpawned", "birdSpawned", "birdKilled", "sphereSpawned", "sphereRemoved"]

/-- The voice-signaling cases of the switch (server.js lines 127-155). -/
def voiceTypes : List String :=
  ["voice_ready", "voice_offer", "voice_answer", "voice_ice_candidate", "voice_stop"]

/-- The room-lifecycle request types handled before any relay case. -/
def roomLifecycleTypes : List String := ["host", "join", "autoJoin"]

/-- Every type the server's switch relays to the sender's room. -/
def serverRelayedTypes : List String := ["position", "interaction"] ++ relayEntityTypes

/-- The message the server builds when relaying `m` from the client with
identity `senderId`, per relay case shape. -/
def relayStamp (m : InMsg) (senderId : Nat) : OutMsg :=
  if m.type = "position" ∨ m.type = "interaction" then
    OutMsg.relayedWithId m.type senderId m.data
  else if m.type ∈ voiceTypes then
    OutMsg.relayedVoice m.type senderId m.data
  else
    OutMsg.relayedWithSender m.type senderId m.data

/-- The server's `ws.on('message')` dispatch switch (server.js lines 59-159).
A connection absent from `clients` aborts with no effect (the thrown access
on an undefined record is caught by the surrounding try/catch).  Types with
no case fall through the switch and have no effect.  The five entity cases
share one body shape and are embedded through membership in
`relayEntityTypes`; likewise the five voice cases. -/
def handleMessage (openConn : Conn → Bool) (freshCode : String) (s : ServerState) (ws : Conn)
    (m : InMsg) : ServerState × List (Conn × OutMsg) :=
  match lookupA ws s.clients with
  | none => (s, [])
  | some cl =>
    if m.type = "host" then
      handleHostSession s ws cl (m.roomCode.getD (""))
    else if m.type = "join" then
      handleJoinSession openConn s ws cl (m.roomCode.getD (""))
    else if m.type = "autoJoin" then
      handleAutoJoin openConn freshCode s ws cl
    else if m.type = "position" ∨ m.type = "interaction" then
      (s, broadcastToRoom s openConn cl.roomCode (OutMsg.relayedWithId m.type cl.id m.data) (some ws))
    else if m.type ∈ relayEntityTypes then
      (s, broadcastToRoom s openConn cl.roomCode (OutMsg.relayedWithSender m.type cl.id m.data) (some ws))
    else if m.type ∈ voiceTypes then
      match m.targetId with
      | some tid =>
        match s.clients.find? (fun p => p.2.id == tid && p.2.roomCode == cl.roomCode) with
        | some p => (s, [(p.1, OutMsg.relayedVoice m.type cl.id m.data)])
        | none => (s, [])
      | none =>
        (s, broadcastToRoom s openConn cl.roomCode (OutMsg.relayedVoice m.type cl.id m.data) (some ws))
    else (s, [])

/-- `wss.on('connection')` (server.js lines 48-57): register the connection
with a fresh identity and no room, bump the counter, send `init`. -/
def handleConnect (s : ServerState) (c : Conn) : ServerState × List (Conn × OutMsg) :=
  ({ s with clients := setA c { id := s.nextClientId, roomCode := none } s.clients,
            nextClientId := s.nextClientId + 1 },
   [(c, OutMsg.init s.nextClientId)])

/-- `ws.on('close')` (server.js lines 161-184): leave the current room if
any, notify the remaining members, garbage-collect an empty room, and
forget the connection. -/
def handleDisconnect (openConn : Conn → Bool) (s : ServerState) (c : Conn) :
    ServerState × List (Conn × OutMsg) :=
  match lookupA c s.clients with
  | none => (s, [])
  | some cl =>
    match cl.roomCode with
    | some rc =>
      match lookupA rc s.rooms with
      | some members =>
        let members' := members.erase c
        let s1 : ServerState := { s with rooms := setA rc members' s.rooms }
        let outs := broadcastToRoom s1 openConn (some rc) (OutMsg.playerLeft cl.id) none
        let s2 := if members'.length = 0 then { s1 with rooms := delA rc s1.rooms } else s1
        ({ s2 with clients := delA c s2.clients }, outs)
      | none => ({ s with clients := delA c s.clients }, [])
    | none => ({ s with clients := delA c s.clients }, [])

/-- The externally visible server events: a new connection, an inbound
message (carrying the random room code the server would draw on autoJoin),
and a connection closing. -/
inductive SEvent where
  | connect (c : Conn)
  | message (c : Conn) (m : InMsg) (freshCode : String)
  | disconnect (c : Conn)
deriving DecidableEq, Repr

/-- One server step on an event. -/
def serverStep (openConn : Conn → Bool) (s : ServerState) (e : SEvent) :
    ServerState × List (Conn × OutMsg) :=
  match e with
  | SEvent.connect c => handleConnect s c
  | SEvent.message c m fresh => handleMessage openConn fresh s c m
  | SEvent.disconnect c => handleDisconnect openConn s c

/-- The server state after a sequence of events. -/
def serverRun (openConn : Conn → Bool) (s : ServerState) (es : List SEvent) : ServerState :=
  es.foldl (fun st e => (serverStep openConn st e).1) s

/-- The server's initial state (server.js lines 44-46). -/
def initialServerState : ServerState := { rooms := [], clients := [], nextClientId := 1 }

/-- The member list of a room, empty when the room does not exist. -/
def membersOf (s : ServerState) (rc : String) : List Conn :=
  (lookupA rc s.rooms).getD []

/-- A networked bullet entity as `BulletManager` stores it: the shooter
identity (possibly absent before `init` arrives) and the opaque
position/direction/speed payload. -/
structure NetBullet where
  shooterId : Option Nat
  payload : String
deriving DecidableEq, Repr

/-- A bird entity as `BirdManager.birds` stores it: its spawn time (for the
lifespan check) and the opaque pose/movement payload. -/
structure BirdRec where
  spawnTime : Nat
  payload : String
deriving DecidableEq, Repr

/-- `BirdManager` fields used by the synchronization logic
(part_008 constructor). -/
structure BirdMgr where
  birds : List (String × BirdRec)
  isSpawning : Bool
  lastSpawnTime : Nat
deriving DecidableEq, Repr

/-- `ScoreManager.scores` (playerId -> total). -/
structure ScoreMgr where
  scores : List (Nat × Int)
deriving DecidableEq, Repr

/-- The per-client synchronization state: own identity and host flag (from
`NetworkManager`), the entity maps of the managers, and the score ledger. -/
structure ClientState where
  localPlayerId : Nat
  isHost : Bool
  bullets : List NetBullet
  birdMgr : BirdMgr
  spheres : List (String × String)
  players : List (Nat × String)
  scoreMgr : ScoreMgr
deriving DecidableEq, Repr

/-- Messages a client sends while handling bird events. -/
inductive CSend where
  | birdSpawned (id : String) (payload : String)
  | birdRemoved (id : String)
  | birdKilled (id : String) (shooterId : Option Nat)
deriving DecidableEq, Repr

/-- `BirdManager.spawnInterval` (10 seconds between spawns). -/
def birdSpawnInterval : Nat := 10000

/-- `Bird.lifespan` (50 seconds). -/
def birdLifespan : Nat := 50000

/-- `BirdManager.maxBirds`. -/
def maxBirds : Nat := 6

/-- `ScoreManager.updateScore(playerId, points)` (entities/Bird.js file,
ScoreManager section): adds `points` to the current score, starting from 0
when the player has no entry. -/
def updateScore (sm : ScoreMgr) (playerId : Nat) (points : Int) : ScoreMgr :=
  let currentScore := (lookupA playerId sm.scores).getD 0
  { sm with scores := setA playerId (currentScore + points) sm.scores }

/-- The replicated score a client holds for a player (0 when absent). -/
def scoreOf (cs : ClientState) (playerId : Nat) : Int :=
  (lookupA playerId cs.scoreMgr.scores).getD 0

/-- `BulletManager.handleNetworkBulletSpawn(data, senderId)` (lines 132-151):
returns at once when `senderId` equals the local player identity, otherwise
builds a bullet from the data and adds it to the `bullets` set. -/
def handleNetworkBulletSpawn (cs : ClientState) (dataShooterId : Option Nat) (payload : String)
    (senderId : Nat) : ClientState :=
  if senderId = cs.localPlayerId then cs
  else { cs with bullets := cs.bullets ++ [{ shooterId := dataShooterId, payload := payload }] }

/-- `BirdManager.handleNetworkBirdSpawn(data)` (part_008 lines 149-198):
forces `isSpawning` on, then stores a bird under `data.id`. -/
def handleNetworkBirdSpawn (cs : ClientState) (now : Nat) (id : String) (payload : String) :
    ClientState :=
  let bm := cs.birdMgr
  let bm1 := if bm.isSpawning then bm else { bm with isSpawning := true }
  { cs with birdMgr :=
      { bm1 with birds := setA id { spawnTime := now, payload := payload } bm1.birds } }

/-- Modelled from the spec: `SphereManager.handleNetworkSphereSpawn` is not
under src (only its guarded call in `NetworkManager.handleMessage` is);
per the spec's entity-synchronization and message-catalog sections, a
relayed `sphereSpawned` message creates the sphere entity locally, keyed by
its identifier. -/
def handleNetworkSphereSpawn (cs : ClientState) (id : String) (payload : String) : ClientState :=
  { cs with spheres := setA id payload cs.spheres }

/-- `PlayerManager.updatePlayer(id, data)`: updates the pose of an already
known remote player, and does nothing for an unknown id. -/
def updatePlayer (cs : ClientState) (id : Nat) (payload : String) : ClientState :=
  match lookupA id cs.players with
  | some _ => { cs with players := setA id payload cs.players }
  | none => cs

/-- `BirdManager.removeBird(id)` (part_008 lines 131-147): when the id is
present, drop the bird and (host only) broadcast `birdRemoved`; otherwise
do nothing. -/
def removeBird (cs : ClientState) (id : String) : ClientState × List CSend :=
  match lookupA id cs.birdMgr.birds with
  | some _ =>
    let cs' := { cs with birdMgr := { cs.birdMgr with birds := delA id cs.birdMgr.birds } }
    (cs', if cs.isHost then [CSend.birdRemoved id] else [])
  | none => (cs, [])

/-- `BirdManager.handleBirdKilled(data)` (part_008 lines 262-281): when the
bird is still known, credit 10 points to `data.shooterId` (when present) and
remove the bird; an unknown id does nothing. -/
def handleBirdKilled (cs : ClientState) (id : String) (shooterId : Option Nat) : ClientState :=
  match lookupA id cs.birdMgr.birds with
  | some _ =>
    let cs1 := match shooterId with
      | some sid => { cs with scoreMgr := updateScore cs.scoreMgr sid 10 }
      | none => cs
    { cs1 with birdMgr := { cs1.birdMgr with birds := delA id cs1.birdMgr.birds } }
  | none => cs

/-- `BirdManager.handleNetworkBirdUpdate(data)` (part_008 lines 283-290):
updates the pose of a known bird, no-op for an unknown id. -/
def handleNetworkBirdUpdate (cs : ClientState) (id : String) (payload : String) : ClientState :=
  match lookupA id cs.birdMgr.birds with
  | some b =>
    { cs with birdMgr :=
        { cs.birdMgr with birds := setA id { b with payload := payload } cs.birdMgr.birds } }
  | none => cs

/-- The kill branch of `BirdManager.handleBulletCollision(bullet)`
(part_008 lines 204-260), for a lethal hit of bullet with shooter
`shooterId` on the bird `id`: credit 10 points to the shooter (when known),
broadcast `birdKilled`, then remove the bird locally. -/
def bulletKillBird (cs : ClientState) (id : String) (shooterId : Option Nat) :
    ClientState × List CSend :=
  match lookupA id cs.birdMgr.birds with
  | some _ =>
    let cs1 := match shooterId with
      | some sid => { cs with scoreMgr := updateScore cs.scoreMgr sid 10 }
      | none => cs
    let cs2 := { cs1 with birdMgr := { cs1.birdMgr with birds := delA id cs1.birdMgr.birds } }
    (cs2, [CSend.birdKilled id shooterId])
  | none => (cs, [])

/-- `BirdManager.spawnBird()` (part_008 lines 84-129), with the random
position/direction drawn into `payload` and the generated uuid passed in:
stores the bird and, only when this client is the host, broadcasts
`birdSpawned`. -/
def spawnBird (cs : ClientState) (now : Nat) (uuid : String) (payload : String) :
    ClientState × List CSend :=
  let cs' := { cs with birdMgr :=
      { cs.birdMgr with birds := setA uuid { spawnTime := now, payload := payload } cs.birdMgr.birds } }
  if cs.isHost then (cs', [CSend.birdSpawned uuid payload]) else (cs', [])

/-- Folds `spawnBird` over a list of (uuid, payload) seeds. -/
def spawnList (cs : ClientState) (now : Nat) (seeds : List (String × String)) :
    ClientState × List CSend :=
  seeds.foldl (fun acc sd =>
    let r := spawnBird acc.1 now sd.1 sd.2
    (r.1, acc.2 ++ r.2)) (cs, [])

/-- `BirdManager.startSpawning()` (part_008 lines 303-317): switch spawning
on, reset the spawn timer, and — on a client that is NOT the host — spawn
`min 2 maxBirds` initial birds locally. -/
def startSpawning (cs : ClientState) (now : Nat) (seeds : List (String × String)) :
    ClientState × List CSend :=
  let cs0 := { cs with birdMgr := { cs.birdMgr with isSpawning := true, lastSpawnTime := 0 } }
  if cs.isHost = false then
    spawnList cs0 now (seeds.take (min 2 maxBirds))
  else (cs0, [])

/-- Folds `removeBird` over a list of bird ids, collecting the sends (the
removal loop of `BirdManager.update`). -/
def birdRemoveFold (cs : ClientState) (ids : List String) : ClientState × List CSend :=
  ids.foldl (fun acc id =>
    let r := removeBird acc.1 id
    (r.1, acc.2 ++ r.2)) (cs, ([] : List CSend))

/-- `BirdManager.update(delta)` (part_008 lines 30-82), spawn gate and
lifespan removal: nothing happens while `isSpawning` is off; only the host
spawns (up to `min 2 (maxBirds - size)` birds once the interval elapsed);
then every bird whose age exceeds its lifespan is removed via `removeBird`,
and a host that removed one re-bases the spawn timer. -/
def birdManagerUpdate (cs : ClientState) (now : Nat) (seeds : List (String × String)) :
    ClientState × List CSend :=
  if cs.birdMgr.isSpawning = false then (cs, [])
  else
    let spawned :=
      if cs.isHost ∧ cs.birdMgr.lastSpawnTime + birdSpawnInterval < now
         ∧ cs.birdMgr.birds.length < maxBirds then
        let birdsToSpawn := min 2 (maxBirds - cs.birdMgr.birds.length)
        let r := spawnList cs now (seeds.take birdsToSpawn)
        ({ r.1 with birdMgr := { r.1.birdMgr with lastSpawnTime := now } }, r.2)
      else (cs, [])
    let cs1 := spawned.1
    let expired := (cs1.birdMgr.birds.filter
      (fun p => decide (p.2.spawnTime + birdLifespan < now))).map (fun p => p.1)
    let removed := birdRemoveFold cs1 expired
    let cs2 := removed.1
    let cs3 := if cs2.isHost ∧ expired ≠ [] then
        { cs2 with birdMgr := { cs2.birdMgr with lastSpawnTime := now } }
      else cs2
    (cs3, spawned.2 ++ removed.2)

/-- An inbound client message as the client dispatch inspects it: the type,
the identity the server attached (the `id` field for position messages, the
`senderId` field otherwise), the entity id and shooter inside `data`, and
the rest of the payload. -/
structure CInMsg where
  type : String
  senderId : Nat
  entityId : String
  dataShooterId : Option Nat
  payload : String
deriving DecidableEq, Repr

/-- The entity spawn/update portion of `NetworkManager.handleMessage`
(lines 157-190) together with the bird destroy cases: `position` updates a
remote player only when the attached id differs from the local identity;
`bulletSpawned` defers to the bullet manager (which applies its own
self-echo guard); `sphereSpawned` and `birdSpawned` are dispatched only when
`senderId` differs from the local identity; `birdRemoved` and `birdKilled`
defer to the bird manager unguarded. -/
def clientHandleMessage (cs : ClientState) (now : Nat) (m : CInMsg) :
    ClientState × List CSend :=
  if m.type = "position" then
    (if m.senderId ≠ cs.localPlayerId then updatePlayer cs m.senderId m.payload else cs, [])
  else if m.type = "bulletSpawned" then
    (handleNetworkBulletSpawn cs m.dataShooterId m.payload m.senderId, [])
  else if m.type = "sphereSpawned" then
    (if m.senderId ≠ cs.localPlayerId then handleNetworkSphereSpawn cs m.entityId m.payload
     else cs, [])
  else if m.type = "birdSpawned" then
    (if m.senderId ≠ cs.localPlayerId then handleNetworkBirdSpawn cs now m.entityId m.payload
     else cs, [])
  else if m.type = "birdRemoved" then
    removeBird cs m.entityId
  else if m.type = "birdKilled" then
    (handleBirdKilled cs m.entityId m.dataShooterId, [])
  else (cs, [])

/-- The spawn/update message types of the client dispatch. -/
def clientSpawnUpdateTypes : List String :=
  ["position", "bulletSpawned", "sphereSpawned", "birdSpawned"]

/-- A three-component real vector (THREE.Vector3 with the double-precision
floats idealized as reals). -/
structure Vec3 where
  x : ℝ
  y : ℝ
  z : ℝ

/-- The movement state of an orbiting `Bird` (part_006 constructor):
spawn parameters and the current position. -/
structure BirdMotion where
  initialPosition : Vec3
  position : Vec3
  radius : ℝ
  angularSpeed : ℝ
  verticalSpeed : ℝ
  baseHeight : ℝ
  spawnTime : ℝ

/-- The circular-movement portion of `Bird.update` (part_006 lines 158-184):
with `age = now - spawnTime` and `angle = angularSpeed * age`, the new
position is `initialPosition.x + radius*cos angle` in x,
`baseHeight + sin(verticalSpeed*age) * 0.5` in y, and
`initialPosition.z + radius*sin angle` in z. -/
noncomputable def birdUpdatePosition (b : BirdMotion) (now : ℝ) : BirdMotion :=
  let age := now - b.spawnTime
  let angle := b.angularSpeed * age
  let xOff := b.radius * Real.cos angle
  let zOff := b.radius * Real.sin angle
  let verticalOffset := Real.sin (b.verticalSpeed * age) * 0.5
  { b with position :=
      { x := b.initialPosition.x + xOff,
        y := b.baseHeight + verticalOffset,
        z := b.initialPosition.z + zOff } }

/-- The closed form stated by the spec for orbiting entities:
`initialPosition + radius*(cos(angularSpeed*t), 0, sin(angularSpeed*t))`
with the y coordinate equal to `baseHeight` plus the sinusoidal vertical
offset.  Written from the spec's words, to be compared with
`birdUpdatePosition`. -/
noncomputable def specOrbitPosition (initialPosition : Vec3) (radius angularSpeed verticalSpeed baseHeight : ℝ)
    (t : ℝ) : Vec3 :=
  { x := initialPosition.x + radius * Real.cos (angularSpeed * t),
    y := baseHeight + Real.sin (verticalSpeed * t) * 0.5,
    z := initialPosition.z + radius * Real.sin (angularSpeed * t) }

/-- A message as `NetworkManager.autoJoinRoom`'s inner listener inspects
it: the type tag and the room code it may carry. -/
structure AJMsg where
  type : String
  roomCode : Option String
deriving DecidableEq, Repr

/-- The outcome of the auto-join promise: resolution with the confirmation
message, or rejection by the 5-second timer. -/
inductive AutoJoinResult where
  | resolved (m : AJMsg)
  | rejectedTimeout
deriving DecidableEq, Repr

/-- The observable end state of one `autoJoinRoom` call: the promise
outcome, whether `clearTimeout` ran, and the `currentRoom` the call set. -/
structure AutoJoinRun where
  result : AutoJoinResult
  timerCancelled : Bool
  currentRoom : Option String
deriving DecidableEq, Repr

/-- `NetworkManager.autoJoinRoom` (lines 229-261), run against a schedule of
messages received after the request, each paired with its arrival time in
milliseconds (nondecreasing).  The listener resolves on the first
`autoJoinConfirm`, clearing the 5000 ms timer and recording the room; if no
confirmation precedes the timer, the timer fires and the promise rejects
with the timeout error. -/
def autoJoinRoom (events : List (Nat × AJMsg)) : AutoJoinRun :=
  match events.find? (fun e => e.2.type == "autoJoinConfirm") with
  | some e =>
    if e.1 < 5000 then
      { result := AutoJoinResult.resolved e.2, timerCancelled := true, currentRoom := e.2.roomCode }
    else
      { result := AutoJoinResult.rejectedTimeout, timerCancelled := false, currentRoom := none }
  | none =>
    { result := AutoJoinResult.rejectedTimeout, timerCancelled := false, currentRoom := none }

/-- The auto-join timeout constant (5 seconds). -/
def autoJoinTimeoutMs : Nat := 5000

/- Concrete fixtures used by closed counterexamples and witnesses. -/

/-- Room code used by concrete server scenarios. -/
def codeA : String := "ROOMA1"

/-- A second room code. -/
def codeB : String := "ROOMB2"

/-- A concrete server state: room `codeA` with members 1 and 2, both
registered and open. -/
def exTwoMemberState : ServerState :=
  { rooms := [(codeA, [1, 2])],
    clients := [(1, { id := 1, roomCode := some codeA }),
                (2, { id := 2, roomCode := some codeA })],
    nextClientId := 3 }

/-- A `birdRemoved` client message (one of the types the server's switch
has no case for). -/
def birdRemovedMsg : InMsg :=
  { type := "birdRemoved", data := "bird7", targetId := none, roomCode := some codeA }

/-- A `host` request for `codeA`. -/
def hostMsgA : InMsg :=
  { type := "host", data := "", targetId := none, roomCode := some codeA }

/-- A `host` request for `codeB`. -/
def hostMsgB : InMsg :=
  { type := "host", data := "", targetId := none, roomCode := some codeB }

/-- The event sequence for the double-host scenario: connection 1 connects,
hosts `codeA`, then hosts `codeB`. -/
def doubleHostEvents : List SEvent :=
  [SEvent.connect 1,
   SEvent.message 1 hostMsgA (""),
   SEvent.message 1 hostMsgB ("")]

/-- The state the double-host scenario reaches (all channels open). -/
def doubleHostFinal : ServerState :=
  serverRun (fun _ => true) initialServerState doubleHostEvents

/-- The bird id used by concrete client scenarios. -/
def exBirdId : String := "bird1"

/-- A concrete client state: non-host, with one bird `bird1`, no bullets,
no scores, a known remote player 2. -/
def exClientState : ClientState :=
  { localPlayerId := 1,
    isHost := false,
    bullets := [],
    birdMgr := { birds := [(exBirdId, { spawnTime := 0, payload := "pose0" })],
                 isSpawning := true, lastSpawnTime := 0 },
    spheres := [],
    players := [(2, "pose2")],
    scoreMgr := { scores := [] } }

/-- A `host` request message for the given code. -/
def hostReq (code : String) : InMsg :=
  { type := "host", data := "", targetId := none, roomCode := some code }

/-- Two registered connections, no rooms yet. -/
def exLobbyState : ServerState :=
  { rooms := [],
    clients := [(1, { id := 1, roomCode := none }), (2, { id := 2, roomCode := none })],
    nextClientId := 3 }

/-- Connection 1 hosting room `codeA`, connection 2 still in the lobby. -/
def exHostedState : ServerState :=
  { rooms := [(codeA, [1])],
    clients := [(1, { id := 1, roomCode := some codeA }), (2, { id := 2, roomCode := none })],
    nextClientId := 3 }

/-- A non-host client with no birds at all. -/
def exEmptyNonHost : ClientState :=
  { localPlayerId := 2,
    isHost := false,
    bullets := [],
    birdMgr := { birds := [], isSpawning := false, lastSpawnTime := 0 },
    spheres := [],
    players := [],
    scoreMgr := { scores := [] } }

/-- Two (uuid, payload) spawn seeds. -/
def exSeeds : List (String × String) := [("u1", "p1"), ("u2", "p2")]

/-- An entity id matching no local bird. -/
def exMissingId : String := "ghost"

/-- A concrete orbiting bird: the spawn parameters `BirdManager.spawnBird`
uses (radius 30, angular speed 0.0004, vertical speed 0.0005). -/
noncomputable def exBirdMotion : BirdMotion :=
  { initialPosition := { x := 1, y := 2, z := 3 },
    position := { x := 1, y := 2, z := 3 },
    radius := 30, angularSpeed := 0.0004, verticalSpeed := 0.0005,
    baseHeight := 2, spawnTime := 0 }

/-- A schedule where the confirmation arrives 100 ms after the request. -/
def exConfirmEarly : List (Nat × AJMsg) :=
  [(100, { type := "autoJoinConfirm", roomCode := some codeA })]

/-- A schedule where no confirmation arrives before the 5000 ms timer. -/
def exConfirmLate : List (Nat × AJMsg) :=
  [(2000, { type := "playerJoined", roomCode := none }),
   (6000, { type := "autoJoinConfirm", roomCode := some codeA })]

/-! Shared lemmas about the `Map`/`Set` embedding and the broadcast. -/

theorem lookupA_setA_self {α β : Type} [DecidableEq α] (k : α) (v : β) (l : List (α × β)) :
    lookupA k (setA k v l) = some v := by
  induction l with
  | nil => simp [setA, lookupA]
  | cons p rest ih =>
    by_cases h : k = p.1
    · simp [setA, h, lookupA]
    · simp [setA, h, lookupA, ih]

theorem lookupA_setA_ne {α β : Type} [DecidableEq α] {k k' : α} (v : β) (l : List (α × β))
    (h : k' ≠ k) : lookupA k' (setA k v l) = lookupA k' l := by
  induction l with
  | nil => simp [setA, lookupA, h]
  | cons p rest ih =>
    by_cases hk : k = p.1
    · have h' : k' ≠ p.1 := by rw [← hk]; exact h
      simp [setA, hk, lookupA, h, h']
    · by_cases hk' : k' = p.1
      · simp [setA, hk, lookupA, hk']
      · simp [setA, hk, lookupA, hk', ih]

theorem lookupA_isSome_iff_mem {α β : Type} [DecidableEq α] (k : α) (l : List (α × β)) :
    (lookupA k l).isSome ↔ k ∈ l.map Prod.fst := by
  induction l with
  | nil => simp [lookupA]
  | cons p rest ih =>
    by_cases h : k = p.1
    · simp [lookupA, h]
    · simp [lookupA, h, ih]

theorem keys_delA_subset {α β : Type} [DecidableEq α] {k b : α} {l : List (α × β)}
    (h : k ∈ (delA b l).map Prod.fst) : k ∈ l.map Prod.fst := by
  induction l with
  | nil => simp [delA] at h
  | cons p rest ih =>
    by_cases hb : b = p.1
    · rw [delA] at h
      simp only [if_pos hb] at h
      simp [h]
    · rw [delA] at h
      simp only [if_neg hb] at h
      rcases (List.mem_map).mp h with ⟨q, hq, rfl⟩
      rcases List.mem_cons.mp hq with rfl | hq'
      · simp
      · exact List.mem_cons_of_mem _ (ih (List.mem_map_of_mem Prod.fst hq'))

theorem lookupA_delA_self_of_nodup {α β : Type} [DecidableEq α] {k : α} {l : List (α × β)}
    (h : (l.map Prod.fst).Nodup) : lookupA k (delA k l) = none := by
  induction l with
  | nil => simp [delA, lookupA]
  | cons p rest ih =>
    rcases List.nodup_cons.mp h with ⟨hp, hrest⟩
    by_cases hk : k = p.1
    · rw [delA, if_pos hk]
      rcases ho : lookupA k rest with _ | v
      · rfl
      · exfalso
        apply hp
        rw [← hk]
        exact (lookupA_isSome_iff_mem k rest).mp (by rw [ho]; rfl)
    · rw [delA, if_neg hk, lookupA, if_neg hk]
      exact ih hrest

theorem mem_broadcastToRoom_excl {s : ServerState} {o : Conn → Bool} {rc : Option String}
    {msg : OutMsg} {ws : Conn} {p : Conn × OutMsg}
    (hp : p ∈ broadcastToRoom s o rc msg (some ws)) : p.1 ≠ ws ∧ o p.1 = true := by
  rcases rc with _ | code
  · simp [broadcastToRoom] at hp
  · rcases hlk : lookupA code s.rooms with _ | members
    · simp [broadcastToRoom, hlk] at hp
    · simp only [broadcastToRoom, hlk, List.mem_map] at hp
      obtain ⟨c, hc, rfl⟩ := hp
      have hfc := List.of_mem_filter hc
      simp only [Bool.and_eq_true, bne_iff_ne, ne_eq] at hfc
      exact ⟨hfc.1, hfc.2⟩

/-- C3: for every received spawn/update message whose senderId equals the
receiving client's own local identity, the client synchronization layer
leaves its state (all entity mappings) unchanged and sends nothing; in
particular the bullet entity count does not increase. -/
theorem self_echo_suppression (cs : ClientState) (now : Nat) (m : CInMsg)
    (hty : m.type ∈ clientSpawnUpdateTypes)
    (hsid : m.senderId = cs.localPlayerId) :
    clientHandleMessage cs now m = (cs, [])
    ∧ ((clientHandleMessage cs now m).1).bullets.length = cs.bullets.length := by
  have hmain : clientHandleMessage cs now m = (cs, []) := by
    simp only [clientSpawnUpdateTypes, List.mem_cons, List.not_mem_nil, or_false] at hty
    rcases hty with h | h | h | h <;>
      simp [clientHandleMessage, h, hsid, handleNetworkBulletSpawn]
  exact ⟨hmain, by rw [hmain]⟩

/-- Witness for C3: a `bulletSpawned` echo with the receiver's own id (1)
leaves the concrete client state untouched. -/
theorem self_echo_suppression_witness :
    ({ type := "bulletSpawned", senderId := 1, entityId := "b9",
       dataShooterId := some 1, payload := "pd" } : CInMsg).senderId
        = exClientState.localPlayerId
    ∧ clientHandleMessage exClientState 0
        { type := "bulletSpawned", senderId := 1, entityId := "b9",
          dataShooterId := some 1, payload := "pd" } = (exClientState, []) := by
  refine ⟨rfl, ?_⟩
  exact (self_echo_suppression exClientState 0
    { type := "bulletSpawned", senderId := 1, entityId := "b9",
      dataShooterId := some 1, payload := "pd" } (by decide) rfl).1

/-- C8: an update, remove, or killed message naming a bird id absent from
the local birds map is a no-op: `handleBirdKilled`, `removeBird` (the
`birdRemoved` handler) and `handleNetworkBirdUpdate` leave the client state
unchanged and raise nothing. -/
theorem entity_reference_miss_noop (cs : ClientState) (id payload : String)
    (shooterId : Option Nat)
    (habs : lookupA id cs.birdMgr.birds = none) :
    handleBirdKilled cs id shooterId = cs
    ∧ removeBird cs id = (cs, [])
    ∧ handleNetworkBirdUpdate cs id payload = cs := by
  refine ⟨?_, ?_, ?_⟩ <;>
    simp [handleBirdKilled, removeBird, handleNetworkBirdUpdate, habs]

/-- Witness for C8: the id `ghost` matches no bird of the concrete client
state, and `handleBirdKilled` leaves the state unchanged there. -/
theorem entity_reference_miss_noop_witness :
    lookupA exMissingId exClientState.birdMgr.birds = none
    ∧ handleBirdKilled exClientState exMissingId (some 2) = exClientState
    ∧ removeBird exClientState exMissingId = (exClientState, []) := by
  have h := entity_reference_miss_noop exClientState exMissingId ("pp") (some 2) (by decide)
  exact ⟨by decide, h.1, h.2.1⟩

/-- C4: the position `Bird.update` computes at elapsed age `t` equals the
spec's closed form `initialPosition + radius*(cos(angularSpeed*t), 0,
sin(angularSpeed*t))` with y equal to `baseHeight` plus the sinusoidal
vertical offset; hence two evaluations with identical spawn parameters and
identical elapsed age yield identical coordinates. -/
theorem bird_orbit_deterministic_closed_form
    (b₁ b₂ : BirdMotion) (t₁ t₂ : ℝ)
    (hip : b₁.initialPosition = b₂.initialPosition)
    (hr : b₁.radius = b₂.radius)
    (ha : b₁.angularSpeed = b₂.angularSpeed)
    (hv : b₁.verticalSpeed = b₂.verticalSpeed)
    (hb : b₁.baseHeight = b₂.baseHeight)
    (hage : t₁ - b₁.spawnTime = t₂ - b₂.spawnTime) :
    (birdUpdatePosition b₁ t₁).position
      = specOrbitPosition b₁.initialPosition b₁.radius b₁.angularSpeed b₁.verticalSpeed
          b₁.baseHeight (t₁ - b₁.spawnTime)
    ∧ (birdUpdatePosition b₁ t₁).position = (birdUpdatePosition b₂ t₂).position := by
  constructor
  · rfl
  · simp only [birdUpdatePosition]
    rw [hip, hr, ha, hv, hb, hage]

/-- Witness for C4: the concrete bird's first-update position at time 100
matches the closed form. -/
theorem bird_orbit_deterministic_closed_form_witness :
    exBirdMotion.radius = exBirdMotion.radius
    ∧ (birdUpdatePosition exBirdMotion 100).position
        = specOrbitPosition exBirdMotion.initialPosition exBirdMotion.radius
            exBirdMotion.angularSpeed exBirdMotion.verticalSpeed exBirdMotion.baseHeight
            (100 - exBirdMotion.spawnTime) := by
  refine ⟨rfl, ?_⟩
  exact (bird_orbit_deterministic_closed_form exBirdMotion exBirdMotion 100 100
    rfl rfl rfl rfl rfl rfl).1

/-- C9: against a time-ordered schedule of received messages, the auto-join
call rejects with the timeout when no `autoJoinConfirm` arrives within
5000 ms, and when the first confirmation arrives within the window it
cancels the timer and resolves with that message. -/
theorem auto_join_timeout_behaviour
    (events : List (Nat × AJMsg))
    (_hmono : events.Chain' (fun a b => a.1 ≤ b.1)) :
    ((∀ e ∈ events, e.2.type = "autoJoinConfirm" → autoJoinTimeoutMs ≤ e.1) →
        (autoJoinRoom events).result = AutoJoinResult.rejectedTimeout)
    ∧ (∀ t mg, events.find? (fun e => e.2.type == "autoJoinConfirm") = some (t, mg) →
        t < autoJoinTimeoutMs →
        autoJoinRoom events =
          { result := AutoJoinResult.resolved mg, timerCancelled := true,
            currentRoom := mg.roomCode }) := by
  constructor
  · intro hall
    rcases hf : events.find? (fun e => e.2.type == "autoJoinConfirm") with _ | e
    · simp [autoJoinRoom, hf]
    · have hmem := List.mem_of_find?_eq_some hf
      have hpred := List.find?_some hf
      simp only [beq_iff_eq] at hpred
      have h5 := hall e hmem hpred
      have hnl : ¬ e.1 < 5000 := by
        simp only [autoJoinTimeoutMs] at h5
        omega
      simp [autoJoinRoom, hf, hnl]
  · intro t mg hf hlt
    have hl5 : t < 5000 := by
      simpa only [autoJoinTimeoutMs] using hlt
    simp [autoJoinRoom, hf, hl5]

/-- Witness for C9: an early confirmation (100 ms) resolves with the
message and cancels the timer; a schedule whose only confirmation is at
6000 ms rejects with the timeout. -/
theorem auto_join_timeout_behaviour_witness :
    autoJoinRoom exConfirmEarly =
      { result := AutoJoinResult.resolved { type := "autoJoinConfirm", roomCode := some codeA },
        timerCancelled := true, currentRoom := some codeA }
    ∧ (autoJoinRoom exConfirmLate).result = AutoJoinResult.rejectedTimeout := by
  constructor
  · exact (auto_join_timeout_behaviour exConfirmEarly (by simp [exConfirmEarly])).2 100
      { type := "autoJoinConfirm", roomCode := some codeA } (by decide) (by decide)
  · exact (auto_join_timeout_behaviour exConfirmLate (by simp [exConfirmLate])).1 (by decide)

theorem kill_then_echo_score (Z : ClientState) (b : String) (sid : Nat)
    (hnod : (Z.birdMgr.birds.map Prod.fst).Nodup)
    (hb : (lookupA b Z.birdMgr.birds).isSome)
    (hs : scoreOf Z sid = 0) :
    scoreOf (handleBirdKilled (bulletKillBird Z b (some sid)).1 b (some sid)) sid = 10 := by
  obtain ⟨v, hv⟩ := Option.isSome_iff_exists.mp hb
  have hbirds : ((bulletKillBird Z b (some sid)).1).birdMgr.birds = delA b Z.birdMgr.birds := by
    simp [bulletKillBird, hv]
  have hscores : ((bulletKillBird Z b (some sid)).1).scoreMgr = updateScore Z.scoreMgr sid 10 := by
    simp [bulletKillBird, hv]
  have habs : lookupA b ((bulletKillBird Z b (some sid)).1).birdMgr.birds = none := by
    rw [hbirds]
    exact lookupA_delA_self_of_nodup hnod
  have hkill : handleBirdKilled (bulletKillBird Z b (some sid)).1 b (some sid)
      = (bulletKillBird Z b (some sid)).1 := by
    simp [handleBirdKilled, habs]
  have hcur : (lookupA sid Z.scoreMgr.scores).getD 0 = 0 := hs
  rw [hkill]
  simp [scoreOf, hscores, updateScore, lookupA_setA_self, hcur]

/-- C5: when clients X and Y both observe the same kill locally (each runs
the lethal branch of `handleBulletCollision`, crediting 10 points) and then
each handles the other's relayed `birdKilled` message, the replicated score
for the shooter is 10 on both clients, not 20: the second credit is skipped
because the bird is already gone. -/
theorem score_convergence_on_simultaneous_kill
    (X Y : ClientState) (b : String) (sid : Nat)
    (hnodX : (X.birdMgr.birds.map Prod.fst).Nodup)
    (hnodY : (Y.birdMgr.birds.map Prod.fst).Nodup)
    (hbX : (lookupA b X.birdMgr.birds).isSome)
    (hbY : (lookupA b Y.birdMgr.birds).isSome)
    (hsX : scoreOf X sid = 0)
    (hsY : scoreOf Y sid = 0) :
    scoreOf (handleBirdKilled (bulletKillBird X b (some sid)).1 b (some sid)) sid = 10
    ∧ scoreOf (handleBirdKilled (bulletKillBird Y b (some sid)).1 b (some sid)) sid = 10 :=
  ⟨kill_then_echo_score X b sid hnodX hbX hsX, kill_then_echo_score Y b sid hnodY hbY hsY⟩

/-- Witness for C5: on the concrete client state holding bird `bird1` and
an empty ledger, the local kill plus the echoed kill leave the shooter's
score at exactly 10. -/
theorem score_convergence_on_simultaneous_kill_witness :
    (lookupA exBirdId exClientState.birdMgr.birds).isSome
    ∧ scoreOf exClientState 3 = 0
    ∧ scoreOf (handleBirdKilled (bulletKillBird exClientState exBirdId (some 3)).1
        exBirdId (some 3)) 3 = 10 := by
  refine ⟨by decide, by decide, ?_⟩
  exact (score_convergence_on_simultaneous_kill exClientState exClientState exBirdId 3
    (by decide) (by decide) (by decide) (by decide) (by decide) (by decide)).1

theorem birds_after_removeBird {cs : ClientState} {k b : String}
    (h : (lookupA k ((removeBird cs b).1).birdMgr.birds).isSome) :
    (lookupA k cs.birdMgr.birds).isSome := by
  rcases hl : lookupA b cs.birdMgr.birds with _ | v
  · simpa [removeBird, hl] using h
  · simp only [removeBird, hl] at h
    rw [lookupA_isSome_iff_mem] at h ⊢
    exact keys_delA_subset h

theorem removeFold_keeps_keys (k : String) :
    ∀ (ids : List String) (acc : ClientState × List CSend),
      (lookupA k ((ids.foldl (fun a id =>
          let r := removeBird a.1 id
          (r.1, a.2 ++ r.2)) acc).1).birdMgr.birds).isSome →
      (lookupA k acc.1.birdMgr.birds).isSome := by
  intro ids
  induction ids with
  | nil => intro acc hacc; exact hacc
  | cons i rest ih =>
    intro acc hacc
    rw [List.foldl_cons] at hacc
    exact birds_after_removeBird
      (ih ((removeBird acc.1 i).1, acc.2 ++ (removeBird acc.1 i).2) hacc)

theorem birds_after_removeFold {ids : List String} {cs : ClientState} {k : String}
    (h : (lookupA k ((birdRemoveFold cs ids).1).birdMgr.birds).isSome) :
    (lookupA k cs.birdMgr.birds).isSome :=
  removeFold_keeps_keys k ids (cs, []) h

theorem spawnFold_sends_nonhost (seeds : List (String × String)) (now : Nat) :
    ∀ (acc : ClientState × List CSend), acc.1.isHost = false →
      (seeds.foldl (fun a sd =>
          let r := spawnBird a.1 now sd.1 sd.2
          (r.1, a.2 ++ r.2)) acc).2 = acc.2
      ∧ (seeds.foldl (fun a sd =>
          let r := spawnBird a.1 now sd.1 sd.2
          (r.1, a.2 ++ r.2)) acc).1.isHost = false := by
  induction seeds with
  | nil => intro acc h; exact ⟨rfl, h⟩
  | cons sd rest ih =>
    intro acc h
    have hb1 : (spawnBird acc.1 now sd.1 sd.2).1.isHost = false := by
      simp [spawnBird, h]
    have hb2 : (spawnBird acc.1 now sd.1 sd.2).2 = [] := by
      simp [spawnBird, h]
    simp only [List.foldl_cons]
    have hr := ih ((spawnBird acc.1 now sd.1 sd.2).1, acc.2 ++ (spawnBird acc.1 now sd.1 sd.2).2) hb1
    constructor
    · rw [hr.1]
      simp [hb2]
    · exact hr.2

/-- C6 counterexample: on a concrete non-host client, `startSpawning`
locally instantiates two birds without any `birdSpawned` message having
been received, refuting the claim that no execution path of the bird
manager spawns a bird on a non-host client. -/
theorem nonhost_start_spawning_spawns_birds_counterexample :
    exEmptyNonHost.isHost = false
    ∧ exEmptyNonHost.birdMgr.birds.length = 0
    ∧ ((startSpawning exEmptyNonHost 0 exSeeds).1).birdMgr.birds.length = 2 := by
  refine ⟨rfl, rfl, ?_⟩
  decide

/-- C6 as amended: the periodic spawner in `BirdManager.update` is
host-gated (a non-host update never adds a bird id), and a non-host client
never broadcasts a spawn (`spawnBird` and `startSpawning` send nothing when
`isHost` is false) — but `startSpawning` does create up to two local birds
on a non-host client. -/
theorem nonhost_never_broadcasts_or_periodically_spawns
    (cs : ClientState) (now : Nat) (seeds : List (String × String)) (uuid payload : String)
    (hnh : cs.isHost = false) :
    (∀ id, (lookupA id ((birdManagerUpdate cs now seeds).1).birdMgr.birds).isSome →
        (lookupA id cs.birdMgr.birds).isSome)
    ∧ (spawnBird cs now uuid payload).2 = []
    ∧ (startSpawning cs now seeds).2 = [] := by
  refine ⟨?_, by simp [spawnBird, hnh], ?_⟩
  · intro id hid
    by_cases hsp : cs.birdMgr.isSpawning = false
    · rw [birdManagerUpdate, if_pos hsp] at hid
      exact hid
    · simp only [birdManagerUpdate, if_neg hsp, hnh, Bool.false_eq_true, false_and,
        if_false] at hid
      split at hid
      · exact birds_after_removeFold hid
      · exact birds_after_removeFold hid
  · have h0 : ({ cs with birdMgr :=
        { cs.birdMgr with isSpawning := true, lastSpawnTime := 0 } } : ClientState).isHost
        = false := hnh
    have := spawnFold_sends_nonhost (seeds.take (min 2 maxBirds)) now
      ({ cs with birdMgr := { cs.birdMgr with isSpawning := true, lastSpawnTime := 0 } }, []) h0
    simp only [startSpawning, hnh, if_pos]
    simpa [spawnList, hnh] using this.1

/-- Witness for C6 (amended): the concrete non-host client broadcasts
nothing from `spawnBird` or `startSpawning`. -/
theorem nonhost_never_broadcasts_witness :
    exEmptyNonHost.isHost = false
    ∧ (spawnBird exEmptyNonHost 0 ("u9") ("p9")).2 = []
    ∧ (startSpawning exEmptyNonHost 0 exSeeds).2 = [] := by
  have h := nonhost_never_broadcasts_or_periodically_spawns exEmptyNonHost 0 exSeeds
    ("u9") ("p9") rfl
  exact ⟨rfl, h.2.1, h.2.2⟩

/-- C7: from any state in which room `code` is free and both connections
are registered, a successful `host(code)` by the first connection followed
by `host(code)` from a second connection yields exactly one `error` reply
to the second, mutates no state, leaves the room's member set at exactly
the first connection, and leaves the second connection's room assignment
unchanged. -/
theorem duplicate_host_rejected_atomically
    (openConn : Conn → Bool) (f₁ f₂ : String) (s : ServerState) (c₁ c₂ : Conn)
    (cl₁ cl₂ : ClientRec) (code : String)
    (hfree : lookupA code s.rooms = none)
    (hc₁ : lookupA c₁ s.clients = some cl₁)
    (hc₂ : lookupA c₂ s.clients = some cl₂)
    (hne : c₂ ≠ c₁) :
    (handleMessage openConn f₂ (handleMessage openConn f₁ s c₁ (hostReq code)).1 c₂
        (hostReq code)).1
      = (handleMessage openConn f₁ s c₁ (hostReq code)).1
    ∧ (handleMessage openConn f₂ (handleMessage openConn f₁ s c₁ (hostReq code)).1 c₂
        (hostReq code)).2
      = [(c₂, OutMsg.errorMsg ("Room already exists"))]
    ∧ lookupA code ((handleMessage openConn f₁ s c₁ (hostReq code)).1).rooms = some [c₁]
    ∧ lookupA c₂ ((handleMessage openConn f₂ (handleMessage openConn f₁ s c₁ (hostReq code)).1
        c₂ (hostReq code)).1).clients = lookupA c₂ s.clients := by
  have hs1 : (handleMessage openConn f₁ s c₁ (hostReq code)).1
      = { s with rooms := setA code [c₁] s.rooms,
                 clients := setA c₁ { cl₁ with roomCode := some code } s.clients } := by
    simp [handleMessage, hostReq, hc₁, handleHostSession, hfree]
  have hroom1 : lookupA code ((handleMessage openConn f₁ s c₁ (hostReq code)).1).rooms
      = some [c₁] := by
    rw [hs1]
    exact lookupA_setA_self code [c₁] s.rooms
  have hc₂' : lookupA c₂ ((handleMessage openConn f₁ s c₁ (hostReq code)).1).clients
      = some cl₂ := by
    rw [hs1]
    show lookupA c₂ (setA c₁ { cl₁ with roomCode := some code } s.clients) = some cl₂
    rw [lookupA_setA_ne _ _ hne]
    exact hc₂
  have hgen : ∀ s1 : ServerState, lookupA c₂ s1.clients = some cl₂ →
      lookupA code s1.rooms = some [c₁] →
      handleMessage openConn f₂ s1 c₂ (hostReq code)
        = (s1, [(c₂, OutMsg.errorMsg ("Room already exists"))]) := by
    intro s1 h1 h2
    simp [handleMessage, hostReq, h1, handleHostSession, h2]
  have hstep2 := hgen (handleMessage openConn f₁ s c₁ (hostReq code)).1 hc₂' hroom1
  refine ⟨by rw [hstep2], by rw [hstep2], hroom1, ?_⟩
  rw [hstep2]
  rw [hc₂', hc₂]

/-- Witness for C7: with both connections in the lobby and `codeA` free,
the second `host(codeA)` is refused and room `codeA` still holds exactly
connection 1. -/
theorem duplicate_host_rejected_atomically_witness :
    lookupA codeA exLobbyState.rooms = none
    ∧ (handleMessage (fun _ => true) ("") (handleMessage (fun _ => true) ("") exLobbyState 1
        (hostReq codeA)).1 2 (hostReq codeA)).2
      = [(2, OutMsg.errorMsg ("Room already exists"))]
    ∧ lookupA codeA ((handleMessage (fun _ => true) ("") exLobbyState 1 (hostReq codeA)).1).rooms
      = some [1] := by
  have h := duplicate_host_rejected_atomically (fun _ => true) ("") ("") exLobbyState 1 2
    { id := 1, roomCode := none } { id := 2, roomCode := none } codeA
    (by decide) (by decide) (by decide) (by decide)
  exact ⟨by decide, h.2.1, h.2.2.1⟩

/-- C2 counterexample: the state reached by connect(1), host(codeA),
host(codeB) — a sequence of the claim's events — has connection 1 in the
member sets of both rooms at once, refuting the at-most-one-room
invariant. -/
theorem double_host_two_rooms_counterexample :
    (1 : Conn) ∈ membersOf doubleHostFinal codeA
    ∧ (1 : Conn) ∈ membersOf doubleHostFinal codeB
    ∧ codeA ≠ codeB := by
  decide

/-- C2 as amended: the client record's `roomCode` field names at most one
room, but the handlers never remove a connection from its previous room's
member set: a connection in room `rcA` that successfully hosts a fresh
room `rcB` stays in `rcA`'s member set while also entering `rcB`'s. -/
theorem host_keeps_previous_room_membership
    (openConn : Conn → Bool) (fresh : String) (s : ServerState) (ws : Conn) (cl : ClientRec)
    (rcA rcB : String)
    (hcl : lookupA ws s.clients = some cl)
    (hmemA : ws ∈ membersOf s rcA)
    (hfreeB : lookupA rcB s.rooms = none) :
    ws ∈ membersOf (handleMessage openConn fresh s ws (hostReq rcB)).1 rcA
    ∧ ws ∈ membersOf (handleMessage openConn fresh s ws (hostReq rcB)).1 rcB
    ∧ (lookupA ws ((handleMessage openConn fresh s ws (hostReq rcB)).1).clients).map
        ClientRec.roomCode = some (some rcB) := by
  have hAB : rcA ≠ rcB := by
    intro h
    rw [h] at hmemA
    simp [membersOf, hfreeB] at hmemA
  have hs1 : (handleMessage openConn fresh s ws (hostReq rcB)).1
      = { s with rooms := setA rcB [ws] s.rooms,
                 clients := setA ws { cl with roomCode := some rcB } s.clients } := by
    simp [handleMessage, hostReq, hcl, handleHostSession, hfreeB]
  refine ⟨?_, ?_, ?_⟩
  · rw [hs1]
    have hlk : lookupA rcA (setA rcB [ws] s.rooms) = lookupA rcA s.rooms :=
      lookupA_setA_ne _ _ hAB
    simpa [membersOf, hlk] using hmemA
  · rw [hs1]
    simp [membersOf, lookupA_setA_self]
  · rw [hs1]
    show (lookupA ws (setA ws { cl with roomCode := some rcB } s.clients)).map
        ClientRec.roomCode = some (some rcB)
    rw [lookupA_setA_self]
    rfl

/-- Witness for C2 (amended): connection 1, hosting `codeA`, hosts the
fresh `codeB` and is afterwards a member of both rooms. -/
theorem host_keeps_previous_room_membership_witness :
    (1 : Conn) ∈ membersOf exHostedState codeA
    ∧ (1 : Conn) ∈ membersOf (handleMessage (fun _ => true) ("") exHostedState 1
        (hostReq codeB)).1 codeA
    ∧ (1 : Conn) ∈ membersOf (handleMessage (fun _ => true) ("") exHostedState 1
        (hostReq codeB)).1 codeB := by
  have h := host_keeps_previous_room_membership (fun _ => true) ("") exHostedState 1
    { id := 1, roomCode := some codeA } codeA codeB (by decide) (by decide) (by decide)
  exact ⟨by decide, h.1, h.2.1⟩

/-- C1 counterexample: in a room with two open members, a `birdRemoved`
message from member 1 is dropped by the server — no forward reaches the
other open member 2 — refuting the claim that the relay applies uniformly
to every non-lifecycle message type. -/
theorem birdRemoved_not_relayed_counterexample :
    (2 : Conn) ∈ membersOf exTwoMemberState codeA
    ∧ (2 : Conn) ≠ 1
    ∧ (lookupA 1 exTwoMemberState.clients).map ClientRec.roomCode = some (some codeA)
    ∧ handleMessage (fun _ => true) ("") exTwoMemberState 1 birdRemovedMsg
      = (exTwoMemberState, []) := by
  refine ⟨by decide, by decide, by decide, by decide⟩

/-- C1 as amended: the relay discipline — drop silently when the sender is
in no room, otherwise forward with the sender's identity attached to every
other open member — holds exactly for the enumerated switch cases
(position, interaction, the five entity types, and broadcast voice
signaling); every other non-lifecycle type (e.g. birdRemoved, bulletHit,
birdPositionUpdate, gameStart, leave) is dropped with no effect even when
the sender is in a room. -/
theorem relay_enumerated_only
    (openConn : Conn → Bool) (fresh : String) (s : ServerState) (ws : Conn) (m : InMsg)
    (cl : ClientRec)
    (hcl : lookupA ws s.clients = some cl)
    (htid : m.targetId = none) :
    ((m.type ∈ serverRelayedTypes ∨ m.type ∈ voiceTypes) →
      ((cl.roomCode = none → handleMessage openConn fresh s ws m = (s, []))
       ∧ (∀ rc members, cl.roomCode = some rc → lookupA rc s.rooms = some members →
           handleMessage openConn fresh s ws m =
             (s, (members.filter (fun c => (c != ws) && openConn c)).map
                   (fun c => (c, relayStamp m cl.id))))))
    ∧ (m.type ∉ roomLifecycleTypes → m.type ∉ serverRelayedTypes → m.type ∉ voiceTypes →
        handleMessage openConn fresh s ws m = (s, [])) := by
  constructor
  · intro hty
    have hcases : m.type = "position" ∨ m.type = "interaction" ∨ m.type = "bulletSpawned"
        ∨ m.type = "birdSpawned" ∨ m.type = "birdKilled" ∨ m.type = "sphereSpawned"
        ∨ m.type = "sphereRemoved" ∨ m.type = "voice_ready" ∨ m.type = "voice_offer"
        ∨ m.type = "voice_answer" ∨ m.type = "voice_ice_candidate"
        ∨ m.type = "voice_stop" := by
      simpa [serverRelayedTypes, relayEntityTypes, voiceTypes, or_assoc] using hty
    constructor
    · intro hroom
      rcases hcases with h|h|h|h|h|h|h|h|h|h|h|h <;>
        simp [handleMessage, hcl, h, relayEntityTypes, voiceTypes, htid,
          broadcastToRoom, hroom]
    · intro rc members hrc hmem
      rcases hcases with h|h|h|h|h|h|h|h|h|h|h|h <;>
        simp [handleMessage, hcl, h, relayEntityTypes, voiceTypes, htid,
          broadcastToRoom, hrc, hmem, relayStamp]
  · intro h1 h2 h3
    simp [roomLifecycleTypes] at h1
    simp [serverRelayedTypes, relayEntityTypes] at h2
    simp [voiceTypes] at h3
    obtain ⟨n1, n2, n3⟩ := h1
    obtain ⟨n4, n5, n6, n7, n8, n9, n10⟩ := h2
    obtain ⟨n11, n12, n13, n14, n15⟩ := h3
    simp [handleMessage, hcl, relayEntityTypes, voiceTypes, n1, n2, n3, n4, n5, n6, n7,
      n8, n9, n10, n11, n12, n13, n14, n15]

/-- Witness for C1 (amended): a `bulletSpawned` message from member 1 of
the two-member room is forwarded, stamped with senderId 1, exactly to the
other open member 2. -/
theorem relay_enumerated_only_witness :
    (("bulletSpawned" : String) ∈ serverRelayedTypes
      ∨ ("bulletSpawned" : String) ∈ voiceTypes)
    ∧ handleMessage (fun _ => true) ("") exTwoMemberState 1
        { type := "bulletSpawned", data := "bd", targetId := none, roomCode := some codeA }
      = (exTwoMemberState,
         [(2, OutMsg.relayedWithSender ("bulletSpawned") 1 ("bd"))]) := by
  have h := (relay_enumerated_only (fun _ => true) ("") exTwoMemberState 1
      { type := "bulletSpawned", data := "bd", targetId := none, roomCode := some codeA }
      { id := 1, roomCode := some codeA } (by decide) rfl).1 (by decide)
  have h2 := h.2 codeA [1, 2] rfl (by decide)
  refine ⟨by decide, ?_⟩
  rw [h2]
  decide

/-- C10: for every relayed client-originated message (position,
interaction, the five entity types, and broadcast voice messages with no
targetId), the sender's socket is the excluded socket of `broadcastToRoom`,
which sends only to members that are distinct from the excluded socket and
whose channel is open — so no recipient of the relay is the sender or a
non-open member. -/
theorem relay_excludes_sender_and_closed
    (openConn : Conn → Bool) (fresh : String) (s : ServerState) (ws : Conn) (m : InMsg)
    (cl : ClientRec)
    (hcl : lookupA ws s.clients = some cl)
    (hty : m.type ∈ serverRelayedTypes ∨ m.type ∈ voiceTypes)
    (htid : m.targetId = none) :
    ∀ p ∈ (handleMessage openConn fresh s ws m).2, p.1 ≠ ws ∧ openConn p.1 = true := by
  have hcases : m.type = "position" ∨ m.type = "interaction" ∨ m.type = "bulletSpawned"
      ∨ m.type = "birdSpawned" ∨ m.type = "birdKilled" ∨ m.type = "sphereSpawned"
      ∨ m.type = "sphereRemoved" ∨ m.type = "voice_ready" ∨ m.type = "voice_offer"
      ∨ m.type = "voice_answer" ∨ m.type = "voice_ice_candidate"
      ∨ m.type = "voice_stop" := by
    simpa [serverRelayedTypes, relayEntityTypes, voiceTypes, or_assoc] using hty
  have hbc : (handleMessage openConn fresh s ws m).2
      = broadcastToRoom s openConn cl.roomCode (relayStamp m cl.id) (some ws) := by
    rcases hcases with h|h|h|h|h|h|h|h|h|h|h|h <;>
      simp [handleMessage, hcl, h, relayEntityTypes, voiceTypes, htid, relayStamp]
  intro p hp
  rw [hbc] at hp
  exact mem_broadcastToRoom_excl hp

/-- Witness for C10: a `position` update from member 1, with member 3's
channel closed, reaches no recipient equal to the sender and no non-open
recipient. -/
theorem relay_excludes_sender_and_closed_witness :
    (("position" : String) ∈ serverRelayedTypes ∨ ("position" : String) ∈ voiceTypes)
    ∧ ∀ p ∈ (handleMessage (fun c => decide (c ≠ 3)) ("") exTwoMemberState 1
        { type := "position", data := "pd", targetId := none, roomCode := some codeA }).2,
        p.1 ≠ 1 ∧ (fun c => decide (c ≠ 3)) p.1 = true := by
  refine ⟨by decide, ?_⟩
  exact relay_excludes_sender_and_closed (fun c => decide (c ≠ 3)) ("") exTwoMemberState 1
    { type := "position", data := "pd", targetId := none, roomCode := some codeA }
    { id := 1, roomCode := some codeA } (by decide) (by decide) rfl
